import Mathlib

/-!
Verification development for the ECR scan lambda (`handler.go`).

The program enumerates ECR repositories, fetches image-scan findings per
repository, filters them against a severity threshold, and posts Slack
notifications.  External collaborators (the ECR client and the Slack client)
are embedded as oracles: each network call site reads its outcome from an
environment record, and every attempted notification dispatch is recorded in
a message log so that theorems can speak about what was and was not sent.

The ECR client is aws-sdk-go v1, whose generated methods return a
pre-allocated, non-nil output struct even when they also return an error;
the value dereferenced on a failed lookup is therefore the zero value of
the output type, embedded here as `zeroFinding`.
-/

namespace EcrScanLambda

/-- Modelled from the spec: the `internal` package's severity enumeration is
not under `src/`.  The spec fixes the total order
`UNDEFINED < INFORMATIONAL/LOW < MEDIUM < HIGH < CRITICAL` ("an ordered
enumeration ... plus an informational level"), matching the six entries of
`internal.SeverityList` used in `handler.go`. -/
inductive SeverityLevel where
  | UNDEFINED
  | INFORMATIONAL
  | LOW
  | MEDIUM
  | HIGH
  | CRITICAL
deriving DecidableEq, Repr, Fintype

/-- Modelled from the spec: the fixed ordinal of each severity level. -/
def rank : SeverityLevel → Nat
  | .UNDEFINED => 0
  | .INFORMATIONAL => 1
  | .LOW => 2
  | .MEDIUM => 3
  | .HIGH => 4
  | .CRITICAL => 5

/-- Modelled from the spec: the per-level weight table, "weights strictly
increasing with severity rank, e.g. powers of a base so that any nonzero
count at a higher level outranks any combination of lower levels". -/
def weight (l : SeverityLevel) : Nat := 2 ^ rank l

/-- A finding's severity-count mapping (`FindingSeverityCounts` in
`handler.go`): a finite map from severity level to a count, embedded as an
association list.  A Go map has distinct keys; theorems that need this take
a `Nodup` hypothesis on the keys. -/
abbrev SeverityCounts : Type := List (SeverityLevel × Nat)

/-- Modelled from the spec: `internal.Severity.CalculateScore` is not under
`src/`.  Per the spec's severity model (4.1) and the design note that "the
source scores severity using the count mapping's size as an implicit proxy",
the score is the weighted sum over the levels present in the mapping, with
the strictly increasing weight table guaranteeing the domination property. -/
def CalculateScore (c : SeverityCounts) : Nat := (c.map fun p => weight p.1).sum

/-- Modelled from the spec: the display name of each severity level, as used
for the keys of `internal.SeverityTable` and `internal.SeverityList`. -/
def levelName : SeverityLevel → String
  | .UNDEFINED => "UNDEFINED"
  | .INFORMATIONAL => "INFORMATIONAL"
  | .LOW => "LOW"
  | .MEDIUM => "MEDIUM"
  | .HIGH => "HIGH"
  | .CRITICAL => "CRITICAL"

/-- Parse a severity-level name; `none` for a string naming no level. -/
def parseLevel (s : String) : Option SeverityLevel :=
  if s = "UNDEFINED" then some .UNDEFINED
  else if s = "INFORMATIONAL" then some .INFORMATIONAL
  else if s = "LOW" then some .LOW
  else if s = "MEDIUM" then some .MEDIUM
  else if s = "HIGH" then some .HIGH
  else if s = "CRITICAL" then some .CRITICAL
  else none

/-- Modelled from the spec: `internal.SeverityTable`, the map from a severity
level's name to its weight, used via `SeverityTable[a.minimumSeverity]` in
`handler.go` line 82.  A Go map lookup of an absent key yields the zero
value, hence `0` for an unknown name. -/
def SeverityTable (s : String) : Nat :=
  match parseLevel s with
  | some l => weight l
  | none => 0

/-- Structure `internal.ScanErrors` as constructed in `handler.go` line 56. -/
structure ScanErrors where
  RepositoryName : String
deriving DecidableEq, Repr

/-- Structure `internal.Severity` as constructed in `handler.go` lines 77-80. -/
structure Severity where
  Count : SeverityCounts
  Link : String
deriving DecidableEq, Repr

/-- Structure `internal.Repository` as constructed in `handler.go` lines 75-81. -/
structure Repository where
  Name : String
  Severity : Severity
deriving DecidableEq, Repr

/-- The part of `ecr.DescribeImageScanFindingsOutput` that `handler.go`
reads: `RepositoryName`, `ImageId.ImageDigest`, and
`ImageScanFindings.FindingSeverityCounts`.  `FindingSeverityCounts = none`
embeds a `nil` `ImageScanFindings` pointer; `some []` embeds a present but
empty map (`len(...) == 0`). -/
structure Finding where
  RepositoryName : String
  ImageDigest : String
  FindingSeverityCounts : Option SeverityCounts
deriving DecidableEq, Repr

/-- Structure `events.APIGatewayProxyResponse`, restricted to the two fields
`handler.go` sets: `StatusCode` and `Body` (the Go zero value of `Body` is
the empty string). -/
structure Response where
  StatusCode : Nat
  Body : String
deriving DecidableEq, Repr

/-- Function `errorResponse` (`handler.go` lines 124-126). -/
def errorResponse (e : String) : Response := { StatusCode := 500, Body := e }

/-- The zero value of `ecr.DescribeImageScanFindingsOutput`, the value
dereferenced on the error branch of `GetFindings` (`handler.go` line 58):
aws-sdk-go v1 pre-allocates the output struct, so the output pointer is
non-nil even when the call errors, and all of the struct's own pointer
fields are nil.  A nil `ImageScanFindings` is `none`; the nil
`RepositoryName` and `ImageId` pointers are never dereferenced downstream
(the guard at `handler.go` line 74 filters this entry out before lines
76/79 would read them), so the empty string stands in for them without
changing any observable behaviour. -/
def zeroFinding : Finding :=
  { RepositoryName := "", ImageDigest := "", FindingSeverityCounts := none }

/-- Function `GetFindings` (`handler.go` lines 38-61).  The ECR
collaborator's `DescribeImageScanFindings` is the oracle `scan`; `.error e`
is a non-nil `err`.  On error the loop appends a `ScanErrors` entry for the
repository and also appends the dereferenced output (`*finding`, line 58),
which under aws-sdk-go v1 is the non-nil zero-value output struct, then
continues with the next repository: the function is total and both output
lists follow the input enumeration order. -/
def GetFindings (scan : String → Except String Finding) :
    List String → List Finding × List ScanErrors
  | [] => ([], [])
  | repo :: rest =>
    let p := GetFindings scan rest
    match scan repo with
    | .ok f => (f :: p.1, p.2)
    | .error _ => (zeroFinding :: p.1, { RepositoryName := repo } :: p.2)

/-- The deep-link URL built at `handler.go` line 79. -/
def mkLink (region name digest : String) : String :=
  "https://console.aws.amazon.com/ecr/repositories/" ++ name ++ "/image/" ++
    digest ++ "/scan-results?region=" ++ region

/-- The `internal.Repository` record built at `handler.go` lines 75-81 for a
finding that passed the nil/empty check. -/
def toRepo (region : String) (f : Finding) : Repository :=
  { Name := f.RepositoryName
    Severity :=
      { Count := f.FindingSeverityCounts.getD []
        Link := mkLink region f.RepositoryName f.ImageDigest } }

/-- The filter loop of `Handle` (`handler.go` lines 71-86): skip findings
with a nil or empty severity-count map, build the `Repository`, and keep it
when its score reaches the configured threshold's score. -/
def filterFindings (region minSev : String) : List Finding → List Repository
  | [] => []
  | f :: rest =>
    match f.FindingSeverityCounts with
    | some cs =>
      if cs = [] then filterFindings region minSev rest
      else
        let r := toRepo region f
        if SeverityTable minSev ≤ CalculateScore r.Severity.Count then
          r :: filterFindings region minSev rest
        else filterFindings region minSev rest
    | none => filterFindings region minSev rest

/-- A dispatched (attempted) Slack notification: either a standalone text
message (`PostStandaloneMessage`) or a per-repository message block
(`BuildMessageBlock` + `PostMessage`). -/
inductive Msg where
  | standalone (text : String)
  | block (r : Repository)
deriving DecidableEq, Repr

/-- Oracle for the Slack collaborator: the outcome of each notification call
site of `Handle`.  `blockResult i` is the outcome of posting the block for
the `i`-th filtered repository. -/
structure SlackEnv where
  headerResult : Except String Unit
  blockResult : Nat → Except String (String × String)
  digestHeaderResult : Except String Unit
  digestBodyResult : Except String Unit

/-- The header message built at `handler.go` line 88; the formatted
invocation date is the parameter. -/
def headerMsg (date : String) : String := "*Scan results on " ++ date ++ "*"

/-- The fixed digest alert string of `handler.go` line 105. -/
def alertMsg : String := ":x: *Failed get scan results from the following repos:* :x:"

/-- The digest body of `handler.go` lines 111-114: each failed repository
name followed by a newline, concatenated in order. -/
def failedRepos (scanErrors : List ScanErrors) : String :=
  String.join (scanErrors.map fun s => s.RepositoryName ++ "\n")

/-- The per-repository dispatch loop of `Handle` (`handler.go` lines
94-102), starting at block index `i`: posts blocks until one fails,
returning the log of attempted dispatches and the first error, if any. -/
def sendBlocks (env : SlackEnv) (i : Nat) : List Repository → List Msg × Option String
  | [] => ([], none)
  | r :: rest =>
    match env.blockResult i with
    | .ok _ =>
      let p := sendBlocks env (i + 1) rest
      (Msg.block r :: p.1, p.2)
    | .error e => ([Msg.block r], some e)

/-- The error-digest step of `Handle` (`handler.go` lines 104-119): when the
scan-error list is non-empty, post the fixed alert header, then the
newline-terminated list of failed repository names. -/
def sendDigest (env : SlackEnv) (scanErrors : List ScanErrors) : List Msg × Option String :=
  if scanErrors.length ≠ 0 then
    match env.digestHeaderResult with
    | .error e => ([Msg.standalone alertMsg], some e)
    | .ok _ =>
      match env.digestBodyResult with
      | .error e =>
        ([Msg.standalone alertMsg, Msg.standalone (failedRepos scanErrors)], some e)
      | .ok _ =>
        ([Msg.standalone alertMsg, Msg.standalone (failedRepos scanErrors)], none)
  else ([], none)

/-- Function `Handle` from the point where findings and scan errors are in hand
(`handler.go` lines 71-121): filter, post the header, post one block per
filtered repository aborting on the first failure, then post the error
digest when scan errors exist.  Returns the trigger response and the log of
attempted dispatches. -/
def handleAfterCollect (env : SlackEnv) (region minSev date : String)
    (findings : List Finding) (scanErrors : List ScanErrors) : Response × List Msg :=
  let filtered := filterFindings region minSev findings
  match env.headerResult with
  | .error e => (errorResponse e, [Msg.standalone (headerMsg date)])
  | .ok _ =>
    match sendBlocks env 0 filtered with
    | (log, some e) => (errorResponse e, Msg.standalone (headerMsg date) :: log)
    | (log, none) =>
      match sendDigest env scanErrors with
      | (dlog, some e) =>
        (errorResponse e, Msg.standalone (headerMsg date) :: (log ++ dlog))
      | (dlog, none) =>
        ({ StatusCode := 200, Body := "" }, Msg.standalone (headerMsg date) :: (log ++ dlog))

/-- Oracle for the ECR collaborator: `listRepos n` is the outcome of
`DescribeRepositories` with `MaxResults = n` (`ListRepositories`,
`handler.go` lines 25-36, reduced to the repository names `GetFindings`
reads); `scan r` is the outcome of `DescribeImageScanFindings` for
repository `r`. -/
structure EcrEnv where
  listRepos : Nat → Except String (List String)
  scan : String → Except String Finding

/-- Function `Handle` (`handler.go` lines 63-122): list repositories (bound
1000), collect findings tolerating per-repository lookup failures, then
filter and dispatch. -/
def Handle (ecr : EcrEnv) (slack : SlackEnv) (region minSev date : String) :
    Response × List Msg :=
  match ecr.listRepos 1000 with
  | .error e => (errorResponse e, [])
  | .ok repos =>
    handleAfterCollect slack region minSev date (GetFindings ecr.scan repos).1
      (GetFindings ecr.scan repos).2


/-! ### Helper lemmas -/

lemma rank_injective : Function.Injective rank := by decide

lemma sum_range_two_pow (n : Nat) : ∑ i ∈ Finset.range n, 2 ^ i = 2 ^ n - 1 := by
  induction n with
  | zero => simp
  | succ n ih =>
    rw [Finset.sum_range_succ, ih, pow_succ]
    have : 0 < 2 ^ n := Nat.pos_pow_of_pos n (by omega)
    omega

lemma sum_two_pow_lt (rs : List Nat) (R : Nat) (hnd : rs.Nodup)
    (hlt : ∀ r ∈ rs, r < R) : (rs.map (2 ^ ·)).sum < 2 ^ R := by
  classical
  have h1 : (rs.map (2 ^ ·)).sum = rs.toFinset.sum (2 ^ ·) :=
    (List.sum_toFinset _ hnd).symm
  have hsub : rs.toFinset ⊆ Finset.range R := by
    intro r hr
    exact Finset.mem_range.mpr (hlt r (List.mem_toFinset.mp hr))
  have h2 : rs.toFinset.sum (2 ^ ·) ≤ ∑ i ∈ Finset.range R, 2 ^ i :=
    Finset.sum_le_sum_of_subset hsub
  have h3 : 0 < 2 ^ R := Nat.pos_pow_of_pos R (by omega)
  rw [h1]
  calc rs.toFinset.sum (2 ^ ·) ≤ ∑ i ∈ Finset.range R, 2 ^ i := h2
    _ = 2 ^ R - 1 := sum_range_two_pow R
    _ < 2 ^ R := by omega

lemma filterFindings_append (region minSev : String) (xs ys : List Finding) :
    filterFindings region minSev (xs ++ ys)
      = filterFindings region minSev xs ++ filterFindings region minSev ys := by
  induction xs with
  | nil => simp [filterFindings]
  | cons f rest ih =>
    simp only [List.cons_append, filterFindings]
    cases f.FindingSeverityCounts with
    | none => exact ih
    | some cs =>
      by_cases hcs : cs = []
      · simp [hcs, ih]
      · simp only [if_neg hcs]
        split <;> simp [ih]

lemma getFindings_append (scan : String → Except String Finding) (xs ys : List String) :
    GetFindings scan (xs ++ ys)
      = ((GetFindings scan xs).1 ++ (GetFindings scan ys).1,
         (GetFindings scan xs).2 ++ (GetFindings scan ys).2) := by
  induction xs with
  | nil => simp [GetFindings]
  | cons r rest ih =>
    simp only [List.cons_append, GetFindings]
    cases h : scan r <;> simp [ih]

lemma sendBlocks_ok (env : SlackEnv) (rs : List Repository) (k : Nat)
    (h : ∀ i, ∃ ct, env.blockResult i = .ok ct) :
    sendBlocks env k rs = (rs.map Msg.block, none) := by
  induction rs generalizing k with
  | nil => simp [sendBlocks]
  | cons r rest ih =>
    obtain ⟨ct, hct⟩ := h k
    simp [sendBlocks, hct, ih (k + 1)]

lemma sendBlocks_fail (env : SlackEnv) (rs : List Repository) (k n : Nat) (e : String)
    (hn : n < rs.length)
    (hok : ∀ j, j < n → ∃ ct, env.blockResult (k + j) = .ok ct)
    (hfail : env.blockResult (k + n) = .error e) :
    sendBlocks env k rs = ((rs.take (n + 1)).map Msg.block, some e) := by
  induction rs generalizing k n with
  | nil => simp at hn
  | cons r rest ih =>
    cases n with
    | zero =>
      rw [Nat.add_zero] at hfail
      simp [sendBlocks, hfail]
    | succ n' =>
      obtain ⟨ct, hct⟩ := hok 0 (Nat.succ_pos n')
      rw [Nat.add_zero] at hct
      have hrec := ih (k + 1) n' (by simpa using hn)
        (fun j hj => by
          obtain ⟨ct', hct'⟩ := hok (j + 1) (Nat.succ_lt_succ hj)
          exact ⟨ct', by rw [show k + 1 + j = k + (j + 1) by omega]; exact hct'⟩)
        (by rw [show k + 1 + n' = k + (n' + 1) by omega]; exact hfail)
      simp [sendBlocks, hct, hrec]

lemma sendBlocks_error (env : SlackEnv) (rs : List Repository) (k : Nat)
    (log : List Msg) (e : String) (h : sendBlocks env k rs = (log, some e)) :
    ∃ i, env.blockResult i = .error e := by
  induction rs generalizing k log with
  | nil => simp [sendBlocks] at h
  | cons r rest ih =>
    simp only [sendBlocks] at h
    cases hb : env.blockResult k with
    | ok ct =>
      rw [hb] at h
      cases hsb : sendBlocks env (k + 1) rest with
      | mk l2 o2 =>
        rw [hsb] at h
        simp only [Prod.mk.injEq] at h
        exact ih (k + 1) l2 (by rw [hsb, h.2])
    | error e' =>
      rw [hb] at h
      simp only [Prod.mk.injEq, Option.some.injEq] at h
      exact ⟨k, by rw [hb, h.2]⟩

lemma sendDigest_error (env : SlackEnv) (scanErrors : List ScanErrors)
    (dlog : List Msg) (e : String) (h : sendDigest env scanErrors = (dlog, some e)) :
    env.digestHeaderResult = .error e ∨ env.digestBodyResult = .error e := by
  simp only [sendDigest] at h
  split at h
  · cases hdh : env.digestHeaderResult with
    | error e' =>
      rw [hdh] at h
      simp only [Prod.mk.injEq, Option.some.injEq] at h
      cases h.2
      exact Or.inl rfl
    | ok u =>
      rw [hdh] at h
      cases hdb : env.digestBodyResult with
      | error e' =>
        rw [hdb] at h
        simp only [Prod.mk.injEq, Option.some.injEq] at h
        cases h.2
        exact Or.inr rfl
      | ok u' =>
        rw [hdb] at h
        simp at h
  · simp at h

lemma sendDigest_ok (env : SlackEnv) (scanErrors : List ScanErrors)
    (hdh : env.digestHeaderResult = .ok ()) (hdb : env.digestBodyResult = .ok ()) :
    sendDigest env scanErrors
      = (if scanErrors.length = 0 then []
         else [Msg.standalone alertMsg, Msg.standalone (failedRepos scanErrors)], none) := by
  simp only [sendDigest, hdh, hdb]
  split <;> simp_all

lemma sendDigest_nil (env : SlackEnv) : sendDigest env [] = ([], none) := by
  simp [sendDigest]

lemma sendDigest_fail_header (env : SlackEnv) (scanErrors : List ScanErrors) (e : String)
    (hne : scanErrors ≠ []) (hdh : env.digestHeaderResult = .error e) :
    sendDigest env scanErrors = ([Msg.standalone alertMsg], some e) := by
  have hlen : scanErrors.length ≠ 0 := by simpa [List.length_eq_zero] using hne
  simp [sendDigest, hlen, hdh]

lemma sendDigest_fail_body (env : SlackEnv) (scanErrors : List ScanErrors) (e : String)
    (hne : scanErrors ≠ []) (hdh : env.digestHeaderResult = .ok ())
    (hdb : env.digestBodyResult = .error e) :
    sendDigest env scanErrors
      = ([Msg.standalone alertMsg, Msg.standalone (failedRepos scanErrors)], some e) := by
  have hlen : scanErrors.length ≠ 0 := by simpa [List.length_eq_zero] using hne
  simp [sendDigest, hlen, hdh, hdb]

lemma handleAfterCollect_all_ok (env : SlackEnv) (region minSev date : String)
    (findings : List Finding) (scanErrors : List ScanErrors)
    (hh : env.headerResult = .ok ())
    (hb : ∀ i, ∃ ct, env.blockResult i = .ok ct)
    (hdh : env.digestHeaderResult = .ok ())
    (hdb : env.digestBodyResult = .ok ()) :
    handleAfterCollect env region minSev date findings scanErrors
      = ({ StatusCode := 200, Body := "" },
         Msg.standalone (headerMsg date)
           :: ((filterFindings region minSev findings).map Msg.block
             ++ if scanErrors.length = 0 then []
                else [Msg.standalone alertMsg, Msg.standalone (failedRepos scanErrors)])) := by
  have hsb := sendBlocks_ok env (filterFindings region minSev findings) 0 hb
  have hsd := sendDigest_ok env scanErrors hdh hdb
  simp [handleAfterCollect, hh, hsb, hsd]

/-! ### Claim theorems -/

/-- Concrete ECR oracle on which every findings lookup fails. -/
def scanAllFail : String → Except String Finding := fun _ => .error "connection error"

/-- A finding with two CRITICAL-level findings, above the default threshold. -/
def findingCrit : Finding :=
  { RepositoryName := "repo1"
    ImageDigest := "sha256-abc"
    FindingSeverityCounts := some [(SeverityLevel.CRITICAL, 2)] }

/-- A finding whose scan data is absent (`ImageScanFindings == nil`). -/
def findingNoData : Finding :=
  { RepositoryName := "repo2"
    ImageDigest := "sha256-def"
    FindingSeverityCounts := none }

/-- A Slack oracle whose first block dispatch fails. -/
def slackFailFirstBlock : SlackEnv :=
  { headerResult := .ok ()
    blockResult := fun i => if i = 0 then .error "transport down" else .ok ("chan", "ts")
    digestHeaderResult := .ok ()
    digestBodyResult := .ok () }

/-- An ECR oracle whose repository listing fails. -/
def ecrListFail : EcrEnv :=
  { listRepos := fun _ => .error "access denied"
    scan := fun _ => .error "unreached" }

/-- An ECR oracle listing one repository whose scan succeeds. -/
def ecrAllOk : EcrEnv :=
  { listRepos := fun _ => .ok ["repo1"]
    scan := fun _ => .ok findingCrit }

/-- An ECR scan oracle failing for `repo1` and succeeding elsewhere. -/
def scanFailFirst : String → Except String Finding :=
  fun r => if r = "repo1" then .error "connection error" else .ok findingCrit


/-- C1, counterexample: with the single repository `repo1` whose findings
lookup fails, `repo1` is recorded in the `ScanErrors` list, yet the
findings list also receives an entry on its account — the dereferenced
zero-value output — so the repository's lookup does not contribute to
exactly one of the two outputs as the claim states. -/
theorem claim_C1_counterexample :
    GetFindings scanAllFail ["repo1"] = ([zeroFinding], [⟨"repo1"⟩])
    ∧ (GetFindings scanAllFail ["repo1"]).1 ≠ [] := by
  constructor
  · rfl
  · decide

/-- C1, amended: `GetFindings` never aborts, the `ScanErrors` list holds
exactly the repositories whose lookup failed, in input enumeration order,
and the findings list holds one entry per input repository in input
enumeration order — the lookup's output for a success and the dereferenced
zero-value output (a blank placeholder) for a failure. -/
theorem claim_C1_collector_outputs (scan : String → Except String Finding)
    (repos : List String) :
    GetFindings scan repos
      = (repos.map (fun r =>
           match scan r with
           | .ok f => f
           | .error _ => zeroFinding),
         repos.filterMap (fun r =>
           match scan r with
           | .ok _ => none
           | .error _ => some { RepositoryName := r })) := by
  induction repos with
  | nil => rfl
  | cons r rest ih =>
    simp only [GetFindings, List.map_cons, List.filterMap_cons, ih]
    cases h : scan r <;> simp [h]

/-- C2, counterexample: the claimed nil-pointer dereference does not occur.
With `repo1` failing and `repo2` succeeding, the collector returns normally
— the error branch appended the blank zero-value entry and the `ScanErrors`
record — and `repo2` was still processed after the failure: graceful
continuation, not a crash. -/
theorem claim_C2_counterexample :
    GetFindings scanFailFirst ["repo1", "repo2"]
      = ([zeroFinding, findingCrit], [⟨"repo1"⟩])
    ∧ findingCrit ∈ (GetFindings scanFailFirst ["repo1", "repo2"]).1 := by
  constructor
  · rfl
  · decide

/-- C2, amended: `GetFindings` is total on every input: when a lookup
fails, it appends the `ScanErrors` entry and the dereferenced non-nil
zero-value output (a blank finding), then continues with the remaining
repositories unchanged. -/
theorem claim_C2_total_continue (scan : String → Except String Finding)
    (xs ys : List String) (r e : String) (hscan : scan r = .error e) :
    GetFindings scan (xs ++ r :: ys)
      = ((GetFindings scan xs).1 ++ zeroFinding :: (GetFindings scan ys).1,
         (GetFindings scan xs).2
           ++ { RepositoryName := r } :: (GetFindings scan ys).2) := by
  have h1 : GetFindings scan (r :: ys)
      = (zeroFinding :: (GetFindings scan ys).1,
         { RepositoryName := r } :: (GetFindings scan ys).2) := by
    simp [GetFindings, hscan]
  rw [getFindings_append, h1]

/-- C4: a finding with severity-count data is excluded by the filter iff its
severity score is strictly below the threshold level's score, and included
(at its position) whenever its score is at least the threshold's score; in
particular a score equal to the threshold's score is included. -/
theorem claim_C4_filter_threshold (region minSev : String) (xs ys : List Finding)
    (f : Finding) (cs : SeverityCounts)
    (hcs : f.FindingSeverityCounts = some cs) (hne : cs ≠ []) :
    (CalculateScore cs < SeverityTable minSev →
      filterFindings region minSev (xs ++ f :: ys) = filterFindings region minSev (xs ++ ys)) ∧
    (SeverityTable minSev ≤ CalculateScore cs →
      filterFindings region minSev (xs ++ f :: ys)
        = filterFindings region minSev xs
            ++ toRepo region f :: filterFindings region minSev ys) := by
  have hcount : (toRepo region f).Severity.Count = cs := by
    simp [toRepo, hcs]
  constructor
  · intro hlt
    rw [filterFindings_append, filterFindings_append]
    congr 1
    simp only [filterFindings, hcs]
    rw [if_neg hne, hcount, if_neg (by omega)]
  · intro hge
    rw [filterFindings_append]
    congr 1
    simp only [filterFindings, hcs]
    rw [if_neg hne, hcount, if_pos hge]

/-- C9: a finding with no severity-count data (nil or empty mapping) is
excluded from the filtered output entirely: the filter output, the whole
dispatch behaviour (response and message log) are as if the finding were
absent, and a successful lookup, as here, contributes no `ScanErrors`
entry. -/
theorem claim_C9_no_data_excluded (env : SlackEnv) (region minSev date : String)
    (xs ys : List Finding) (f : Finding) (scanErrors : List ScanErrors)
    (scan : String → Except String Finding) (rname : String)
    (hnodata : f.FindingSeverityCounts = none ∨ f.FindingSeverityCounts = some [])
    (hscan : scan rname = .ok f) :
    filterFindings region minSev (xs ++ f :: ys) = filterFindings region minSev (xs ++ ys) ∧
    handleAfterCollect env region minSev date (xs ++ f :: ys) scanErrors
      = handleAfterCollect env region minSev date (xs ++ ys) scanErrors ∧
    GetFindings scan [rname] = ([f], []) := by
  have h1 : filterFindings region minSev (xs ++ f :: ys)
      = filterFindings region minSev (xs ++ ys) := by
    rw [filterFindings_append, filterFindings_append]
    congr 1
    rcases hnodata with h | h <;> simp [filterFindings, h]
  refine ⟨h1, ?_, ?_⟩
  · simp only [handleAfterCollect, h1]
  · simp [GetFindings, hscan]

/-- C10: every repository included by the filter carries exactly the
deep-link URL
`https://console.aws.amazon.com/ecr/repositories/NAME/image/DIGEST/scan-results?region=REGION`
built from its finding's repository name, image digest, and the configured
region. -/
theorem claim_C10_deep_link (region minSev : String) (findings : List Finding)
    (r : Repository) (h : r ∈ filterFindings region minSev findings) :
    ∃ f ∈ findings, r.Name = f.RepositoryName ∧
      r.Severity.Link
        = "https://console.aws.amazon.com/ecr/repositories/" ++ f.RepositoryName
            ++ "/image/" ++ f.ImageDigest ++ "/scan-results?region=" ++ region := by
  induction findings with
  | nil => simp [filterFindings] at h
  | cons f rest ih =>
    simp only [filterFindings] at h
    cases hfc : f.FindingSeverityCounts with
    | none =>
      rw [hfc] at h
      obtain ⟨g, hg, hprop⟩ := ih h
      exact ⟨g, List.mem_cons_of_mem f hg, hprop⟩
    | some cs =>
      rw [hfc] at h
      simp only at h
      by_cases hcs : cs = []
      · rw [if_pos hcs] at h
        obtain ⟨g, hg, hprop⟩ := ih h
        exact ⟨g, List.mem_cons_of_mem f hg, hprop⟩
      · rw [if_neg hcs] at h
        split at h
        · rcases List.mem_cons.mp h with hr | hr
          · subst hr
            exact ⟨f, List.mem_cons_self f rest, rfl, rfl⟩
          · obtain ⟨g, hg, hprop⟩ := ih hr
            exact ⟨g, List.mem_cons_of_mem f hg, hprop⟩
        · obtain ⟨g, hg, hprop⟩ := ih h
          exact ⟨g, List.mem_cons_of_mem f hg, hprop⟩

/-- C3: on the first failing repository-block dispatch the batch aborts:
the log holds the header and exactly the first `n + 1` block attempts (so no
`(n+1)`-th block and no digest messages), and the response is the 500
failure carrying that transport error. -/
theorem claim_C3_dispatch_abort (env : SlackEnv) (region minSev date : String)
    (findings : List Finding) (scanErrors : List ScanErrors) (n : Nat) (e : String)
    (hn : n < (filterFindings region minSev findings).length)
    (hheader : env.headerResult = .ok ())
    (hok : ∀ j, j < n → ∃ ct, env.blockResult j = .ok ct)
    (hfail : env.blockResult n = .error e) :
    handleAfterCollect env region minSev date findings scanErrors
      = (errorResponse e,
         Msg.standalone (headerMsg date)
           :: ((filterFindings region minSev findings).take (n + 1)).map Msg.block) := by
  have hsb := sendBlocks_fail env (filterFindings region minSev findings) 0 n e hn
    (fun j hj => by simpa using hok j hj) (by simpa using hfail)
  simp [handleAfterCollect, hheader, hsb]

/-- C6: when listing repositories fails, the invocation aborts immediately
with that error turned into the 500 response, and the dispatch log is empty:
no notification message of any kind is sent. -/
theorem claim_C6_listing_failure_aborts (ecr : EcrEnv) (slack : SlackEnv)
    (region minSev date e : String) (h : ecr.listRepos 1000 = .error e) :
    Handle ecr slack region minSev date = (errorResponse e, []) := by
  simp [Handle, h]

/-- C7: the trigger response, for every invocation.  The pipeline fails at
the first failing collaborator call in program order — repository listing,
then the header dispatch, then the block dispatches in index order, then
(only when scan errors exist) the digest header and digest body — and the
response is then statusCode 500 with body verbatim that first fatal error's
message; when every call the pipeline makes succeeds, the response is
statusCode 200 with an empty body. -/
theorem claim_C7_trigger_response (ecr : EcrEnv) (slack : SlackEnv)
    (region minSev date : String) :
    (∀ e, ecr.listRepos 1000 = .error e →
      Handle ecr slack region minSev date = ({ StatusCode := 500, Body := e }, [])) ∧
    (∀ repos e, ecr.listRepos 1000 = .ok repos →
      slack.headerResult = .error e →
      (Handle ecr slack region minSev date).1 = { StatusCode := 500, Body := e }) ∧
    (∀ repos n e, ecr.listRepos 1000 = .ok repos →
      slack.headerResult = .ok () →
      n < (filterFindings region minSev (GetFindings ecr.scan repos).1).length →
      (∀ j, j < n → ∃ ct, slack.blockResult j = .ok ct) →
      slack.blockResult n = .error e →
      (Handle ecr slack region minSev date).1 = { StatusCode := 500, Body := e }) ∧
    (∀ repos e, ecr.listRepos 1000 = .ok repos →
      slack.headerResult = .ok () →
      (∀ i, ∃ ct, slack.blockResult i = .ok ct) →
      (GetFindings ecr.scan repos).2 ≠ [] →
      slack.digestHeaderResult = .error e →
      (Handle ecr slack region minSev date).1 = { StatusCode := 500, Body := e }) ∧
    (∀ repos e, ecr.listRepos 1000 = .ok repos →
      slack.headerResult = .ok () →
      (∀ i, ∃ ct, slack.blockResult i = .ok ct) →
      (GetFindings ecr.scan repos).2 ≠ [] →
      slack.digestHeaderResult = .ok () →
      slack.digestBodyResult = .error e →
      (Handle ecr slack region minSev date).1 = { StatusCode := 500, Body := e }) ∧
    (∀ repos, ecr.listRepos 1000 = .ok repos →
      slack.headerResult = .ok () →
      (∀ i, ∃ ct, slack.blockResult i = .ok ct) →
      (GetFindings ecr.scan repos).2 = [] →
      (Handle ecr slack region minSev date).1 = { StatusCode := 200, Body := "" }) ∧
    (∀ repos, ecr.listRepos 1000 = .ok repos →
      slack.headerResult = .ok () →
      (∀ i, ∃ ct, slack.blockResult i = .ok ct) →
      slack.digestHeaderResult = .ok () →
      slack.digestBodyResult = .ok () →
      (Handle ecr slack region minSev date).1 = { StatusCode := 200, Body := "" }) := by
  refine ⟨?_, ?_, ?_, ?_, ?_, ?_, ?_⟩
  · intro e hl
    simp [Handle, hl, errorResponse]
  · intro repos e hl hhe
    simp [Handle, hl, handleAfterCollect, hhe, errorResponse]
  · intro repos n e hl hh hnlt hok hfail
    have hsb := sendBlocks_fail slack
      (filterFindings region minSev (GetFindings ecr.scan repos).1) 0 n e hnlt
      (fun j hj => by simpa using hok j hj) (by simpa using hfail)
    simp [Handle, hl, handleAfterCollect, hh, hsb, errorResponse]
  · intro repos e hl hh hb hne hdh
    have hsb := sendBlocks_ok slack
      (filterFindings region minSev (GetFindings ecr.scan repos).1) 0 hb
    have hsd := sendDigest_fail_header slack (GetFindings ecr.scan repos).2 e hne hdh
    simp [Handle, hl, handleAfterCollect, hh, hsb, hsd, errorResponse]
  · intro repos e hl hh hb hne hdh hdb
    have hsb := sendBlocks_ok slack
      (filterFindings region minSev (GetFindings ecr.scan repos).1) 0 hb
    have hsd := sendDigest_fail_body slack (GetFindings ecr.scan repos).2 e hne hdh hdb
    simp [Handle, hl, handleAfterCollect, hh, hsb, hsd, errorResponse]
  · intro repos hl hh hb hes
    have hsb := sendBlocks_ok slack
      (filterFindings region minSev (GetFindings ecr.scan repos).1) 0 hb
    simp [Handle, hl, handleAfterCollect, hh, hsb, hes, sendDigest_nil]
  · intro repos hl hh hb hdh hdb
    simp only [Handle, hl]
    rw [handleAfterCollect_all_ok slack region minSev date
      (GetFindings ecr.scan repos).1 (GetFindings ecr.scan repos).2 hh hb hdh hdb]

/-- Concrete Slack oracle on which every dispatch succeeds. -/
def slackAllOk : SlackEnv :=
  { headerResult := .ok ()
    blockResult := fun _ => .ok ("chan", "ts")
    digestHeaderResult := .ok ()
    digestBodyResult := .ok () }

/-- C8, counterexample: with failed repositories `repoA` and `repoB` and
every dispatch succeeding, the dispatched digest body is the
newline-terminated string `"repoA\nrepoB\n"`, which differs from the
newline-joined body `"repoA\nrepoB"` the claim states. -/
theorem claim_C8_counterexample :
    (handleAfterCollect slackAllOk "eu-west-1" "HIGH" "2026 Oct 11" []
        [⟨"repoA"⟩, ⟨"repoB"⟩]).2
      = [Msg.standalone (headerMsg "2026 Oct 11"), Msg.standalone alertMsg,
         Msg.standalone "repoA\nrepoB\n"]
    ∧ "repoA\nrepoB\n" ≠ String.intercalate "\n" ["repoA", "repoB"] := by
  constructor
  · decide
  · decide

/-- C8, amended: whenever the header and block dispatches all succeed, the
digest messages appear in the log iff the scan-error list is non-empty, the
digest header is the fixed alert string, and the digest body is the
concatenation of the failed repository names each followed by a newline, in
the order the errors were recorded. -/
theorem claim_C8_error_digest (env : SlackEnv) (region minSev date : String)
    (findings : List Finding) (scanErrors : List ScanErrors)
    (hh : env.headerResult = .ok ())
    (hb : ∀ i, ∃ ct, env.blockResult i = .ok ct)
    (hdh : env.digestHeaderResult = .ok ())
    (hdb : env.digestBodyResult = .ok ()) :
    (handleAfterCollect env region minSev date findings scanErrors).2
      = Msg.standalone (headerMsg date)
          :: ((filterFindings region minSev findings).map Msg.block
            ++ if scanErrors.length = 0 then []
               else [Msg.standalone alertMsg,
                     Msg.standalone
                       (String.join (scanErrors.map fun s => s.RepositoryName ++ "\n"))]) := by
  rw [handleAfterCollect_all_ok env region minSev date findings scanErrors hh hb hdh hdb]
  rfl

/-- C5: any mapping holding a count at level `L` scores at least
`weight L`, and a single (nonzero) count at a level `H` strictly above every
level occurring in another mapping scores strictly higher than that whole
mapping ("domination"). -/
theorem claim_C5_severity_domination (cs lower : SeverityCounts) (L H : SeverityLevel)
    (n m : Nat) (hmem : (L, n) ∈ cs) (_hn : 0 < n) (_hm : 0 < m)
    (hnd : (lower.map Prod.fst).Nodup)
    (hlow : ∀ p ∈ lower, rank p.1 < rank H) :
    weight L ≤ CalculateScore cs ∧ CalculateScore lower < CalculateScore [(H, m)] := by
  constructor
  · have hmem2 : weight L ∈ cs.map (fun p => weight p.1) :=
      List.mem_map_of_mem (fun p => weight p.1) hmem
    exact List.single_le_sum (fun x _ => Nat.zero_le x) _ hmem2
  · have h1 : CalculateScore [(H, m)] = 2 ^ rank H := by
      simp [CalculateScore, weight]
    have h2 : CalculateScore lower = (((lower.map Prod.fst).map rank).map (2 ^ ·)).sum := by
      simp only [CalculateScore, weight, List.map_map]
      rfl
    have hndr : ((lower.map Prod.fst).map rank).Nodup := hnd.map rank_injective
    have hltr : ∀ r ∈ (lower.map Prod.fst).map rank, r < rank H := by
      intro r hr
      simp only [List.map_map, List.mem_map] at hr
      obtain ⟨p, hp, hs⟩ := hr
      rw [← hs]
      exact hlow p hp
    rw [h1, h2]
    exact sum_two_pow_lt _ (rank H) hndr hltr

/-! ### Concrete fixtures and witnesses -/

theorem claim_C3_dispatch_abort_witness :
    handleAfterCollect slackFailFirstBlock "eu-west-1" "HIGH" "2026 Oct 11" [findingCrit] []
      = (errorResponse "transport down",
         Msg.standalone (headerMsg "2026 Oct 11")
           :: ((filterFindings "eu-west-1" "HIGH" [findingCrit]).take 1).map Msg.block) :=
  claim_C3_dispatch_abort slackFailFirstBlock "eu-west-1" "HIGH" "2026 Oct 11"
    [findingCrit] [] 0 "transport down" (by decide) rfl
    (fun j hj => absurd hj (Nat.not_lt_zero j)) rfl

theorem claim_C4_filter_threshold_witness :
    (CalculateScore [(SeverityLevel.CRITICAL, 2)] < SeverityTable "HIGH" →
      filterFindings "eu-west-1" "HIGH" ([] ++ findingCrit :: [])
        = filterFindings "eu-west-1" "HIGH" ([] ++ [])) ∧
    (SeverityTable "HIGH" ≤ CalculateScore [(SeverityLevel.CRITICAL, 2)] →
      filterFindings "eu-west-1" "HIGH" ([] ++ findingCrit :: [])
        = filterFindings "eu-west-1" "HIGH" []
            ++ toRepo "eu-west-1" findingCrit :: filterFindings "eu-west-1" "HIGH" []) :=
  claim_C4_filter_threshold "eu-west-1" "HIGH" [] [] findingCrit
    [(SeverityLevel.CRITICAL, 2)] rfl (by decide)

theorem claim_C5_severity_domination_witness :
    weight SeverityLevel.LOW ≤ CalculateScore [(SeverityLevel.LOW, 3)] ∧
    CalculateScore [(SeverityLevel.HIGH, 4), (SeverityLevel.LOW, 9)]
      < CalculateScore [(SeverityLevel.CRITICAL, 1)] :=
  claim_C5_severity_domination [(SeverityLevel.LOW, 3)]
    [(SeverityLevel.HIGH, 4), (SeverityLevel.LOW, 9)]
    SeverityLevel.LOW SeverityLevel.CRITICAL 3 1
    (by decide) (by decide) (by decide) (by decide) (by decide)

theorem claim_C6_listing_failure_aborts_witness :
    Handle ecrListFail slackAllOk "eu-west-1" "HIGH" "2026 Oct 11"
      = (errorResponse "access denied", []) :=
  claim_C6_listing_failure_aborts ecrListFail slackAllOk "eu-west-1" "HIGH" "2026 Oct 11"
    "access denied" rfl

theorem claim_C2_total_continue_witness :
    GetFindings scanFailFirst ([] ++ "repo1" :: ["repo2"])
      = ((GetFindings scanFailFirst []).1
           ++ zeroFinding :: (GetFindings scanFailFirst ["repo2"]).1,
         (GetFindings scanFailFirst []).2
           ++ { RepositoryName := "repo1" } :: (GetFindings scanFailFirst ["repo2"]).2) :=
  claim_C2_total_continue scanFailFirst [] ["repo2"] "repo1" "connection error" rfl

theorem claim_C7_trigger_response_witness :
    (Handle ecrAllOk slackAllOk "eu-west-1" "HIGH" "2026 Oct 11").1
      = { StatusCode := 200, Body := "" } :=
  (claim_C7_trigger_response ecrAllOk slackAllOk "eu-west-1" "HIGH" "2026 Oct 11").2.2.2.2.2.2
    ["repo1"] rfl rfl (fun _ => ⟨("chan", "ts"), rfl⟩) rfl rfl

theorem claim_C8_error_digest_witness :
    (handleAfterCollect slackAllOk "eu-west-1" "HIGH" "2026 Oct 11" [] [⟨"repoA"⟩]).2
      = Msg.standalone (headerMsg "2026 Oct 11")
          :: ((filterFindings "eu-west-1" "HIGH" []).map Msg.block
            ++ if ([⟨"repoA"⟩] : List ScanErrors).length = 0 then []
               else [Msg.standalone alertMsg,
                     Msg.standalone
                       (String.join (([⟨"repoA"⟩] : List ScanErrors).map
                         fun s => s.RepositoryName ++ "\n"))]) :=
  claim_C8_error_digest slackAllOk "eu-west-1" "HIGH" "2026 Oct 11" [] [⟨"repoA"⟩]
    rfl (fun _ => ⟨("chan", "ts"), rfl⟩) rfl rfl

theorem claim_C9_no_data_excluded_witness :
    filterFindings "eu-west-1" "HIGH" ([] ++ findingNoData :: [findingCrit])
      = filterFindings "eu-west-1" "HIGH" ([] ++ [findingCrit]) ∧
    handleAfterCollect slackAllOk "eu-west-1" "HIGH" "2026 Oct 11"
        ([] ++ findingNoData :: [findingCrit]) []
      = handleAfterCollect slackAllOk "eu-west-1" "HIGH" "2026 Oct 11" ([] ++ [findingCrit]) [] ∧
    GetFindings (fun _ => .ok findingNoData) ["repo2"] = ([findingNoData], []) :=
  claim_C9_no_data_excluded slackAllOk "eu-west-1" "HIGH" "2026 Oct 11" [] [findingCrit]
    findingNoData [] (fun _ => .ok findingNoData) "repo2" (Or.inl rfl) rfl

theorem claim_C10_deep_link_witness :
    ∃ f ∈ [findingCrit], (toRepo "eu-west-1" findingCrit).Name = f.RepositoryName ∧
      (toRepo "eu-west-1" findingCrit).Severity.Link
        = "https://console.aws.amazon.com/ecr/repositories/" ++ f.RepositoryName
            ++ "/image/" ++ f.ImageDigest ++ "/scan-results?region=" ++ "eu-west-1" :=
  claim_C10_deep_link "eu-west-1" "HIGH" [findingCrit] (toRepo "eu-west-1" findingCrit)
    (by decide)

end EcrScanLambda
